import Mathlib

/-!
Verification of the admin authentication decision engine of the ShopifyAPI
repository (packages/shopify-app-remix): the `AuthStrategy` flow controller
(`server/authenticate/admin/authenticate.ts`), the auth-code-flow strategy
(`server/authenticate/admin/strategies/auth-code-flow.ts`), the post-auth hook
trigger, and the login helper (`auth/login/login.ts`).

The TypeScript control flow throws `Response` values to short-circuit a request
to a terminal HTTP response; the embedding models this as `Except Response α`.
External collaborators (session-token validation, the GraphQL probe, the remote
OAuth callback exchange) are passed in as an explicit environment.
-/

namespace ShopifyAuth

/-- A persisted session record (the library's `Session` entity): owning shop
domain, online/offline flag, granted scope set, access-token material and an
optional expiry instant (in abstract time units). -/
structure SessionRec where
  id : String
  shop : String
  isOnline : Bool
  scope : List String
  accessToken : String
  expires : Option Nat
deriving Repr, DecidableEq

/-- Modelled from the spec: `Session.isActive(requiredScopes)` lives in the
external `@shopify/shopify-api` package, not under the sources verified here.
Per the spec it checks both expiry and that granted scopes are a superset of the
required scopes: false whenever `now >= expiry` or some required scope is not
granted, true otherwise. -/
def SessionRec.isActive (s : SessionRec) (required : List String) (now : Nat) : Bool :=
  required.all (fun sc => s.scope.contains sc) &&
    (match s.expires with
     | none => true
     | some e => decide (now < e))

/-- Decoded session-token payload. The source derives the shop from the host
component of the payload's `dest` URL (`getShopFromSessionToken`); the embedding
carries that host directly as `destHost`. -/
structure JwtPayload where
  destHost : String
  sub : String
deriving Repr, DecidableEq

/-- Configured route path constants (`config.auth` in the source). -/
structure AuthPaths where
  path : String
  callbackPath : String
  patchSessionTokenPath : String
  exitIframePath : String
  loginPath : String
deriving Repr, DecidableEq

/-- The app configuration fields the decision engine reads. The source reads
the embedding flag both as `config.isEmbeddedApp` and as
`api.config.isEmbeddedApp`; the embedding keeps them as two separate fields so
that the dependence of each code path on its own flag is preserved. -/
structure AppConfig where
  isEmbeddedApp : Bool
  apiIsEmbeddedApp : Bool
  useOnlineTokens : Bool
  scopes : List String
  auth : AuthPaths
  appUrl : String
  apiKey : String
  hasAfterAuthHook : Bool
deriving Repr, DecidableEq

/-- The request evidence the engine consumes: path, query parameters, the
bearer session token from the `authorization` header, and the `Sec-Fetch-Dest`
header. `currentCookieSessionId` / `currentOfflineCookieId` are the results of
the external `api.session.getCurrentId` cookie lookup (for the configured
online mode, resp. for `isOnline: false`), modelled from the spec as part of
the request evidence. -/
structure RequestInfo where
  path : String
  searchShop : Option String
  searchHost : Option String
  searchEmbedded : Option String
  searchIdToken : Option String
  headerAuthToken : Option String
  secFetchDest : Option String
  exitIframeParam : Option String
  currentCookieSessionId : Option String
  currentOfflineCookieId : Option String
deriving Repr, DecidableEq

/-- Terminal HTTP outcomes thrown by the engine. Redirect-producing helpers
(`beginAuth`, `redirectWithExitIframe`, `redirectToAuthPage`,
`redirectToShopifyOrAppRoot`, `renderAppBridge`) live outside the verified
sources; per the spec each one terminates the handler by throwing, so each is
modelled as a distinct constructor carrying the data the source passes it.
`http` carries an error status and its response text; `shopifyError` is the
bare `ShopifyError` thrown by `getAuthenticatedSession`'s unreachable branch. -/
inductive Response where
  | redirectTo (location : String)
  | bounceRedirect (path : String) (reloadTarget : String)
  | beginAuthRedirect (shop : String) (isOnline : Bool)
  | exitIframeRedirect (shop : String)
  | authPageRedirect (shop : String)
  | renderAppBridge (destination : Option String)
  | redirectToShopifyOrAppRoot
  | http (status : Nat) (text : String)
  | shopifyError
deriving Repr, DecidableEq

/-- The request-scoped pairing of a loaded session record with the session
token that authorized it (token absent on the cookie-based path). -/
structure SessionContext where
  session : SessionRec
  token : Option JwtPayload
deriving Repr, DecidableEq

/-- Result shape of `getAuthenticatedSession` (`ShopWithSessionContext`). -/
structure ShopWithSessionContext where
  sessionContext : Option SessionContext
  shop : String
deriving Repr, DecidableEq

/-- Errors the OAuth callback exchange (`api.auth.callback`) can raise,
mirroring the classes the strategy matches on: `CookieNotFound`,
`InvalidHmacError`, `InvalidOAuthError`, and a catch-all for anything else. -/
inductive CallbackErr where
  | cookieNotFound
  | invalidHmac
  | invalidOAuth
  | other (msg : String)
deriving Repr, DecidableEq

/-- Outcome of the `testSession` GraphQL probe, mirroring the error classes
`handleInvalidOfflineSession` matches on: success, an `HttpResponseError` with
a status code, a `GraphqlQueryError`, or any other error (which the source's
catch handler swallows). -/
inductive ProbeResult where
  | ok
  | httpError (code : Nat) (statusText : String)
  | graphqlError
  | otherError
deriving Repr, DecidableEq

/-- External collaborators of the engine: the session-token validator
(returns the decoded payload, or nothing when signature/expiry/audience checks
fail), the `testSession` GraphQL probe, and the result of the OAuth callback
code exchange for the current request. -/
structure Env where
  validateToken : String → Option JwtPayload
  probe : SessionRec → ProbeResult
  callback : Except CallbackErr SessionRec

/-- JavaScript truthiness for nullable strings: both `null` and the empty
string are falsy, so both collapse to `none`. -/
def jsStr (o : Option String) : Option String :=
  match o with
  | none => none
  | some s => if s = "" then none else some s

/-- Session-store read (`config.sessionStorage.loadSession`): the store is a
keyed record store, looked up by session id. -/
def loadSession (store : List SessionRec) (sid : String) : Option SessionRec :=
  store.find? (fun r => r.id == sid)

/-- Session-store write (`config.sessionStorage.storeSession`): keyed by the
record's id, last store wins. -/
def storeSession (store : List SessionRec) (s : SessionRec) : List SessionRec :=
  s :: store.filter (fun r => !(r.id == s.id))

/-- Modelled from the spec: `api.session.getOfflineId` (external library)
keys offline sessions deterministically from the shop domain. -/
def getOfflineId (shop : String) : String :=
  "offline_" ++ shop

/-- Modelled from the spec: `api.session.getJwtSessionId` (external library)
keys online sessions from the shop domain and the token's subject user id. -/
def getJwtSessionId (shop : String) (sub : String) : String :=
  shop ++ "_" ++ sub

/-- Session-token extraction from the `authorization` header
(`getSessionTokenHeader` helper). -/
def getSessionTokenHeader (req : RequestInfo) : Option String :=
  jsStr req.headerAuthToken

/-- Session-token extraction from the `id_token` search param
(`getSessionTokenFromUrlParam` helper). -/
def getSessionTokenFromUrlParam (req : RequestInfo) : Option String :=
  jsStr req.searchIdToken

/-- Post-auth hook trigger (`triggerAfterAuthHook`): runs the registered
`afterAuth` hook when one is configured; the embedding records whether the
hook fired. -/
def triggerAfterAuthHook (cfg : AppConfig) (_session : SessionRec) : Bool :=
  cfg.hasAfterAuthHook

/-- OAuth begin handler (`AuthCodeFlowStrategy.handleAuthBeginRequest`,
auth-code-flow.ts lines 91-112): for an embedded app whose request signals
iframe context via `Sec-Fetch-Dest: iframe`, escape the iframe through the
exit-iframe responder; otherwise redirect in place to the authorize URL
(offline intent). -/
def handleAuthBeginRequest (cfg : AppConfig) (req : RequestInfo) (shop : String) : Response :=
  if cfg.isEmbeddedApp = true ∧ req.secFetchDest = some "iframe" then
    .exitIframeRedirect shop
  else
    .beginAuthRedirect shop false

/-- Callback error classifier (`AuthCodeFlowStrategy.oauthCallbackError`,
auth-code-flow.ts lines 145-172): `CookieNotFound` restarts the begin flow,
HMAC/OAuth validation failures answer 400, anything else answers 500. -/
def oauthCallbackError (cfg : AppConfig) (req : RequestInfo) (shop : String)
    (e : CallbackErr) : Response :=
  match e with
  | .cookieNotFound => handleAuthBeginRequest cfg req shop
  | .invalidHmac => .http 400 "Invalid OAuth Request"
  | .invalidOAuth => .http 400 "Invalid OAuth Request"
  | .other _ => .http 500 "Internal Server Error"

/-- OAuth callback handler (`AuthCodeFlowStrategy.handleAuthCallbackRequest`,
auth-code-flow.ts lines 114-143). On a successful exchange the session is
stored; if online tokens are required but the exchanged session is offline,
`beginAuth` throws the online-intent redirect (so the after-auth hook is not
reached on that branch); otherwise the hook runs and the handler redirects to
the Shopify admin or the app root (response headers abstracted). A thrown
error is classified by `oauthCallbackError` and the store is untouched.
Returns the terminal response, the resulting store, and whether the after-auth
hook fired. -/
def handleAuthCallbackRequest (cfg : AppConfig) (req : RequestInfo) (shop : String)
    (cb : Except CallbackErr SessionRec) (store : List SessionRec) :
    Response × List SessionRec × Bool :=
  match cb with
  | .error e => (oauthCallbackError cfg req shop e, store, false)
  | .ok session =>
    let stored := storeSession store session
    if cfg.useOnlineTokens = true ∧ session.isOnline = false then
      (.beginAuthRedirect shop true, stored, false)
    else
      (.redirectToShopifyOrAppRoot, stored, triggerAfterAuthHook cfg session)

/-- Characters allowed in the shop-name label of the domain grammar
(alphanumeric/hyphen label structure, per the spec's Shop Identifier
Validator). -/
def isShopChar (c : Char) : Bool :=
  c.isAlphanum || c = '-'

/-- The platform's canonical multi-tenant domain suffix. -/
def shopSuffix : List Char :=
  ".myshopify.com".toList

/-- Modelled from the spec: the domain-grammar check behind
`api.utils.sanitizeShop` (external `@shopify/shopify-api` utility): a
non-empty alphanumeric/hyphen label followed by the canonical
`.myshopify.com` suffix. -/
def isValidShopList (s : List Char) : Bool :=
  decide (shopSuffix.length < s.length) &&
  decide (s.drop (s.length - shopSuffix.length) = shopSuffix) &&
  (s.take (s.length - shopSuffix.length)).all isShopChar

/-- Modelled from the spec: `api.utils.sanitizeShop` runs its argument through
the domain grammar and returns it unchanged when valid, or the invalid signal
(`null`) otherwise - it never throws. A missing argument fails the grammar. -/
def sanitizeShop (s : Option String) : Option String :=
  match s with
  | none => none
  | some str => if isValidShopList str.toList = true then some str else none

/-- Modelled from the spec: `api.utils.sanitizeHost` (external utility)
validates that the `host` parameter is well-formed (a non-empty base64-like
value), returning it or the invalid signal - it never throws. -/
def sanitizeHost (h : Option String) : Option String :=
  match h with
  | none => none
  | some s =>
    if ¬(s = "") ∧ s.toList.all (fun c => c.isAlphanum || c = '+' || c = '/' || c = '=')
    then some s else none

/-- Protocol stripping in the login helper: `shop.replace(/^https?:\/\//, '')`
removes a leading `http://` or `https://`. -/
def stripProtocol (s : List Char) : List Char :=
  if s.take 8 = "https://".toList then s.drop 8
  else if s.take 7 = "http://".toList then s.drop 7
  else s

/-- Suffix completion in the login helper: when the raw input has no dot
(`shop.indexOf('.') === -1`, checked on the raw input), the canonical
`.myshopify.com` suffix is appended to the protocol-stripped value. -/
def shopWithDomainOf (s : List Char) : List Char :=
  if '.' ∈ s then stripProtocol s
  else stripProtocol s ++ shopSuffix

/-- The login helper's shop normalization pipeline (`loginFactory`,
auth/login/login.ts lines 21-31): strip the protocol, complete the domain
suffix, then run the result through the domain-grammar sanitizer. -/
def normalizeShop (s : List Char) : Option (List Char) :=
  let d := shopWithDomainOf s
  if isValidShopList d = true then some d else none

/-- Request evidence consumed by the login helper: the `shop` query parameter
and the `shop` form-data field. -/
structure LoginRequest where
  urlShop : Option String
  formShop : Option String
deriving Repr, DecidableEq

/-- Validation errors the login helper returns (`LoginErrorType`). -/
inductive LoginErrorType where
  | missingShop
  | invalidShop
deriving Repr, DecidableEq

/-- Result of the login helper: a structured validation error returned to the
caller, or a thrown redirect response. -/
inductive LoginResult where
  | validationError (e : LoginErrorType)
  | thrownRedirect (status : Nat) (location : String)
deriving Repr, DecidableEq

/-- Shop selection in the login helper: the form-data `shop` field when
truthy, otherwise the `shop` query parameter; a falsy result is reported as
missing. -/
def loginShopOf (req : LoginRequest) : Option String :=
  match jsStr req.formShop with
  | some s => some s
  | none => jsStr req.urlShop

/-- The login helper (`loginFactory`, auth/login/login.ts lines 8-41): resolve
the raw shop, normalize it, and either return a structured validation error or
throw a 302 redirect to the Shopify admin apps page for that store
(`https://admin.shopify.com/store/<name>/apps/<apiKey>`). -/
def login (apiKey : String) (req : LoginRequest) : LoginResult :=
  match loginShopOf req with
  | none => .validationError .missingShop
  | some shop =>
    match normalizeShop shop.toList with
    | none => .validationError .invalidShop
    | some v =>
      let shopWithoutDot := (v.takeWhile (fun c => ¬(c = '.'))).asString
      .thrownRedirect 302
        ("https://admin.shopify.com/store/" ++ shopWithoutDot ++ "/apps/" ++ apiKey)

/-- Bounce-page route (`AuthCodeFlowStrategy.handleBouncePageRoute`): a
request to the configured patch-session-token path renders the app-bridge
bounce page. -/
def handleBouncePageRoute (cfg : AppConfig) (req : RequestInfo) : Except Response Unit :=
  if req.path = cfg.auth.patchSessionTokenPath then .error (.renderAppBridge none)
  else .ok ()

/-- Exit-iframe route (`AuthCodeFlowStrategy.handleExitIframeRoute`): a
request to the configured exit-iframe path renders the app-bridge page with
the destination carried in the `exitIframe` parameter. -/
def handleExitIframeRoute (cfg : AppConfig) (req : RequestInfo) : Except Response Unit :=
  if req.path = cfg.auth.exitIframePath then
    .error (.renderAppBridge (some (req.exitIframeParam.getD "")))
  else .ok ()

/-- OAuth route dispatch (`AuthCodeFlowStrategy.handleOAuthRoutes`): requests
to the auth-begin or auth-callback paths are terminal; the shop parameter is
sanitized first (400 when invalid), then the matching handler's response is
thrown. -/
def handleOAuthRoutes (cfg : AppConfig) (env : Env) (store : List SessionRec)
    (req : RequestInfo) : Except Response Unit :=
  if ¬(req.path = cfg.auth.path) ∧ ¬(req.path = cfg.auth.callbackPath) then .ok ()
  else
    match sanitizeShop req.searchShop with
    | none => .error (.http 400 "Shop param is invalid")
    | some shop =>
      if req.path = cfg.auth.path then
        .error (handleAuthBeginRequest cfg req shop)
      else
        .error ((handleAuthCallbackRequest cfg req shop env.callback store).1)

/-- Route dispatch (`AuthCodeFlowStrategy.handleRoutes`): bounce page, then
exit-iframe page, then the OAuth begin/callback routes. -/
def handleRoutes (cfg : AppConfig) (env : Env) (store : List SessionRec)
    (req : RequestInfo) : Except Response Unit :=
  match handleBouncePageRoute cfg req with
  | .error r => .error r
  | .ok _ =>
    match handleExitIframeRoute cfg req with
    | .error r => .error r
    | .ok _ => handleOAuthRoutes cfg env store req

/-- Access-token management on the token-carrying path
(`AuthCodeFlowStrategy.manageAccessToken`, auth-code-flow.ts lines 29-48):
when no session was loaded or the loaded session fails
`isActive(config.scopes)`, redirect to the auth page for the shop; otherwise
return the session context unchanged. -/
def manageAccessToken (cfg : AppConfig) (sessionContext : Option SessionContext)
    (shop : String) (now : Nat) : Except Response SessionContext :=
  match sessionContext with
  | none => .error (.authPageRedirect shop)
  | some sc =>
    if sc.session.isActive cfg.scopes now = true then .ok sc
    else .error (.authPageRedirect shop)

/-- URL-parameter validation on the no-token branch
(`AuthStrategy.validateUrlParams`, authenticate.ts lines 140-161): only for an
embedded app config, a shop parameter failing the sanitizer or a host
parameter failing the sanitizer redirects to the configured login path. -/
def validateUrlParams (cfg : AppConfig) (req : RequestInfo) : Except Response Unit :=
  if cfg.isEmbeddedApp = true then
    match sanitizeShop req.searchShop with
    | none => .error (.redirectTo cfg.auth.loginPath)
    | some _ =>
      match sanitizeHost req.searchHost with
      | none => .error (.redirectTo cfg.auth.loginPath)
      | some _ => .ok ()
  else .ok ()

/-- Offline-session lookup (`AuthStrategy.getOfflineToken`): the offline
session id comes from the shop parameter when present, otherwise from the
cookie-based current-id lookup; with no id at all the request is answered
400, otherwise the store is consulted. -/
def getOfflineToken (store : List SessionRec) (req : RequestInfo) :
    Except Response (Option SessionRec) :=
  let offlineId :=
    match jsStr req.searchShop with
    | some shop => some (getOfflineId shop)
    | none => req.currentOfflineCookieId
  match offlineId with
  | none => .error (.http 400 "Bad Request")
  | some oid => .ok (loadSession store oid)

/-- Install check (`AuthStrategy.ensureInstalledOnShop`): with no offline
session the request is sent to OAuth (through the exit-iframe page when the
request is already embedded); with one, an embedded-app config whose request
is not yet embedded probes the session via GraphQL and dispatches on the
probe error exactly as `handleInvalidOfflineSession` does (401 restarts
OAuth, other HTTP errors surface their status, GraphQL errors surface 500,
anything else is swallowed). -/
def ensureInstalledOnShop (cfg : AppConfig) (env : Env) (store : List SessionRec)
    (req : RequestInfo) : Except Response Unit :=
  match getOfflineToken store req with
  | .error r => .error r
  | .ok offlineSession =>
    match offlineSession with
    | none =>
      if req.searchEmbedded = some "1" then
        .error (.exitIframeRedirect (req.searchShop.getD ""))
      else
        .error (.beginAuthRedirect (req.searchShop.getD "") false)
    | some sess =>
      let shop := (jsStr req.searchShop).getD sess.shop
      if cfg.isEmbeddedApp = true ∧ ¬(req.searchEmbedded = some "1") then
        match env.probe sess with
        | .ok => .ok ()
        | .httpError code statusText =>
          if code = 401 then .error (.beginAuthRedirect shop false)
          else .error (.http code statusText)
        | .graphqlError => .error (.http 500 "Internal Server Error")
        | .otherError => .ok ()
      else .ok ()

/-- Embedding check (`AuthStrategy.ensureAppIsEmbeddedIfRequired`): an
embedded-required app (per `api.config.isEmbeddedApp`) whose request lacks the
`embedded=1` marker is redirected to the Shopify admin or the app root. -/
def ensureAppIsEmbeddedIfRequired (cfg : AppConfig) (req : RequestInfo) :
    Except Response Unit :=
  if cfg.apiIsEmbeddedApp = true ∧ ¬(req.searchEmbedded = some "1") then
    .error .redirectToShopifyOrAppRoot
  else .ok ()

/-- Bounce requirement (`AuthStrategy.ensureSessionTokenSearchParamIfRequired`,
authenticate.ts lines 300-314): an embedded-required app whose request lacks a
truthy `id_token` search param is bounced to the patch-session-token path with
a reload target pointing back at the configured app URL (query-string
serialization abstracted). -/
def ensureSessionTokenSearchParamIfRequired (cfg : AppConfig) (req : RequestInfo) :
    Except Response Unit :=
  if cfg.apiIsEmbeddedApp = true ∧ jsStr req.searchIdToken = none then
    .error (.bounceRedirect cfg.auth.patchSessionTokenPath (cfg.appUrl ++ req.path))
  else .ok ()

/-- Session id computed from a validated token payload: online ids combine
shop and subject, offline ids derive from the shop alone. -/
def sessionIdFor (cfg : AppConfig) (payload : JwtPayload) : String :=
  if cfg.useOnlineTokens = true then getJwtSessionId payload.destHost payload.sub
  else getOfflineId payload.destHost

/-- Final store lookup of `getAuthenticatedSession` (authenticate.ts lines
374-383): with no session id the shop alone is returned; otherwise the loaded
record (when present) is paired with the validating token payload. -/
def resolveSessionContext (store : List SessionRec) (shop : String)
    (sessionId : Option String) (payload : Option JwtPayload) :
    Except Response ShopWithSessionContext :=
  match sessionId with
  | none => .ok ⟨none, shop⟩
  | some sid =>
    match loadSession store sid with
    | none => .ok ⟨none, shop⟩
    | some session => .ok ⟨some ⟨session, payload⟩, shop⟩

/-- Session retrieval (`AuthStrategy.getAuthenticatedSession`, authenticate.ts
lines 338-383): with an embedded config and a session token (header, else
`id_token` param) the token is validated (401 on failure) and the session id
derived from its payload; with a non-embedded config the id comes from the
cookie lookup; an embedded config with no token throws a bare `ShopifyError`. -/
def getAuthenticatedSession (cfg : AppConfig) (env : Env) (store : List SessionRec)
    (req : RequestInfo) : Except Response ShopWithSessionContext :=
  let sessionToken :=
    match getSessionTokenHeader req with
    | some t => some t
    | none => getSessionTokenFromUrlParam req
  match cfg.isEmbeddedApp, sessionToken with
  | true, some tok =>
    match env.validateToken tok with
    | none => .error (.http 401 "Unauthorized")
    | some payload =>
      resolveSessionContext store payload.destHost (some (sessionIdFor cfg payload))
        (some payload)
  | false, _ =>
    resolveSessionContext store (req.searchShop.getD "") req.currentCookieSessionId none
  | true, none => .error .shopifyError

/-- Session resolution on the no-token branch (`AuthStrategy.ensureSessionExists`,
authenticate.ts lines 316-331): a missing or inactive session redirects to the
auth page for the shop, an active one is returned. -/
def ensureSessionExists (cfg : AppConfig) (env : Env) (store : List SessionRec)
    (req : RequestInfo) (now : Nat) : Except Response SessionContext :=
  match getAuthenticatedSession cfg env store req with
  | .error r => .error r
  | .ok sws =>
    match sws.sessionContext with
    | none => .error (.authPageRedirect sws.shop)
    | some sc =>
      if sc.session.isActive cfg.scopes now = true then .ok sc
      else .error (.authPageRedirect sws.shop)

/-- The cookie/no-token branch of the decision engine (the else-branch of
`authenticateAndGetSessionContext`, authenticate.ts lines 130-137): URL-param
validation, install check, embedding check, bounce check, then session
resolution. -/
def noTokenBranch (cfg : AppConfig) (env : Env) (store : List SessionRec)
    (req : RequestInfo) (now : Nat) : Except Response SessionContext :=
  match validateUrlParams cfg req with
  | .error r => .error r
  | .ok _ =>
    match ensureInstalledOnShop cfg env store req with
    | .error r => .error r
    | .ok _ =>
      match ensureAppIsEmbeddedIfRequired cfg req with
      | .error r => .error r
      | .ok _ =>
        match ensureSessionTokenSearchParamIfRequired cfg req with
        | .error r => .error r
        | .ok _ => ensureSessionExists cfg env store req now

/-- Top-level decision (`AuthStrategy.authenticateAndGetSessionContext`,
authenticate.ts lines 111-138): dispatch the strategy routes, then follow the
token-header path (session retrieval plus access-token management) or the
cookie/no-token branch. A `.ok` result is a validated session context reached
without any thrown redirect or error response. -/
def authenticateAndGetSessionContext (cfg : AppConfig) (env : Env)
    (store : List SessionRec) (req : RequestInfo) (now : Nat) :
    Except Response SessionContext :=
  match handleRoutes cfg env store req with
  | .error r => .error r
  | .ok _ =>
    match getSessionTokenHeader req with
    | some _ =>
      match getAuthenticatedSession cfg env store req with
      | .error r => .error r
      | .ok sws => manageAccessToken cfg sws.sessionContext sws.shop now
    | none => noTokenBranch cfg env store req now

/-! Concrete instances used by witnesses and counterexamples. -/

/-- Example route-path configuration matching the library defaults. -/
def examplePaths : AuthPaths :=
  { path := "/auth", callbackPath := "/auth/callback",
    patchSessionTokenPath := "/auth/session-token",
    exitIframePath := "/auth/exit-iframe", loginPath := "/auth/login" }

/-- Example non-embedded app configuration. -/
def standaloneConfig : AppConfig :=
  { isEmbeddedApp := false, apiIsEmbeddedApp := false, useOnlineTokens := false,
    scopes := ["read_products"], auth := examplePaths,
    appUrl := "https://app.example.com", apiKey := "test-api-key",
    hasAfterAuthHook := false }

/-- Example embedded app configuration. -/
def embeddedConfig : AppConfig :=
  { standaloneConfig with isEmbeddedApp := true, apiIsEmbeddedApp := true }

/-- Example request with no credential evidence, to a non-auth route. -/
def bareRequest : RequestInfo :=
  { path := "/app", searchShop := none, searchHost := none, searchEmbedded := none,
    searchIdToken := none, headerAuthToken := none, secFetchDest := none,
    exitIframeParam := none, currentCookieSessionId := none,
    currentOfflineCookieId := none }

/-- Example token payload for the tenant `shop1.myshopify.com`. -/
def examplePayload : JwtPayload :=
  ⟨"shop1.myshopify.com", "user1"⟩

/-- Example stored offline session record for `shop1.myshopify.com`. -/
def exampleRecord : SessionRec :=
  { id := getOfflineId "shop1.myshopify.com", shop := "shop1.myshopify.com",
    isOnline := false, scope := ["read_products"], accessToken := "at",
    expires := none }

/-- Example environment: validates exactly the token "tok", probe succeeds,
callback exchange fails with an unclassified error. -/
def exampleEnv : Env :=
  { validateToken := fun t => if t = "tok" then some examplePayload else none,
    probe := fun _ => .ok, callback := .error (.other "boom") }

/-- Example request carrying the session token in header and search param,
with the embedded marker set. -/
def tokenRequest : RequestInfo :=
  { bareRequest with headerAuthToken := some "tok", searchIdToken := some "tok",
                     searchEmbedded := some "1" }

/-! Claim theorems. -/

/-- C2: an OAuth callback whose HMAC/state validation fails (`InvalidHmacError`
or `InvalidOAuthError` raised by the callback exchange) terminates with a 400
response, the session store is unchanged, and the post-auth hook does not
fire. -/
theorem callback_invalid_signature_yields_400
    (cfg : AppConfig) (req : RequestInfo) (shop : String) (store : List SessionRec)
    (e : CallbackErr) (h : e = .invalidHmac ∨ e = .invalidOAuth) :
    handleAuthCallbackRequest cfg req shop (.error e) store
      = (.http 400 "Invalid OAuth Request", store, false) := by
  rcases h with h | h <;> subst h <;> rfl

/-- Witness for C2 at a concrete invalid-HMAC callback. -/
theorem callback_invalid_signature_yields_400_witness :
    handleAuthCallbackRequest embeddedConfig bareRequest "shop1.myshopify.com"
      (.error .invalidHmac) []
      = (.http 400 "Invalid OAuth Request", [], false) :=
  callback_invalid_signature_yields_400 embeddedConfig bareRequest
    "shop1.myshopify.com" [] .invalidHmac (Or.inl rfl)

/-- C3: when online tokens are required and the callback exchange yields an
offline session, the handler stores the offline session and terminates with
the online-intent OAuth-begin redirect, without the post-auth hook having
fired on that branch; the stored offline session is in the resulting store. -/
theorem callback_offline_session_rebegins_online
    (cfg : AppConfig) (req : RequestInfo) (shop : String) (sess : SessionRec)
    (store : List SessionRec)
    (hOnline : cfg.useOnlineTokens = true) (hOff : sess.isOnline = false) :
    handleAuthCallbackRequest cfg req shop (.ok sess) store
      = (.beginAuthRedirect shop true, storeSession store sess, false)
    ∧ sess ∈ storeSession store sess := by
  refine ⟨?_, List.mem_cons_self _ _⟩
  simp [handleAuthCallbackRequest, hOnline, hOff]

/-- Witness for C3 at a concrete offline exchange under an online-token
config. -/
theorem callback_offline_session_rebegins_online_witness :
    handleAuthCallbackRequest { embeddedConfig with useOnlineTokens := true }
      bareRequest "shop1.myshopify.com" (.ok exampleRecord) []
      = (.beginAuthRedirect "shop1.myshopify.com" true,
         storeSession [] exampleRecord, false)
    ∧ exampleRecord ∈ storeSession [] exampleRecord :=
  callback_offline_session_rebegins_online
    { embeddedConfig with useOnlineTokens := true } bareRequest
    "shop1.myshopify.com" exampleRecord [] rfl rfl

/-- C4: under an embedded app config, an OAuth-begin request whose
`Sec-Fetch-Dest` header equals `iframe` is answered through the exit-iframe
responder and never with an in-place redirect to the authorize URL. -/
theorem authBegin_iframe_never_inplace_redirect
    (cfg : AppConfig) (req : RequestInfo) (shop : String)
    (hEmb : cfg.isEmbeddedApp = true) (hDest : req.secFetchDest = some "iframe") :
    handleAuthBeginRequest cfg req shop = .exitIframeRedirect shop
    ∧ ∀ s b, handleAuthBeginRequest cfg req shop ≠ .beginAuthRedirect s b := by
  have h : handleAuthBeginRequest cfg req shop = .exitIframeRedirect shop := by
    simp [handleAuthBeginRequest, hEmb, hDest]
  exact ⟨h, fun s b hc => by rw [h] at hc; exact Response.noConfusion hc⟩

/-- Witness for C4 at a concrete embedded iframe begin request. -/
theorem authBegin_iframe_never_inplace_redirect_witness :
    handleAuthBeginRequest embeddedConfig
      { bareRequest with secFetchDest := some "iframe" } "shop1.myshopify.com"
      = .exitIframeRedirect "shop1.myshopify.com" :=
  (authBegin_iframe_never_inplace_redirect embeddedConfig
    { bareRequest with secFetchDest := some "iframe" } "shop1.myshopify.com"
    rfl rfl).1

/-- C5: an OAuth callback failing with the missing-state-cookie condition
(`CookieNotFound`) terminates with a fresh OAuth-begin outcome for the same
shop - the exit-iframe redirect or the authorize redirect, per embedding -
and never with an HTTP error response. -/
theorem callback_cookie_not_found_restarts_begin
    (cfg : AppConfig) (req : RequestInfo) (shop : String) (store : List SessionRec) :
    ((handleAuthCallbackRequest cfg req shop (.error .cookieNotFound) store).1
        = .exitIframeRedirect shop
      ∨ (handleAuthCallbackRequest cfg req shop (.error .cookieNotFound) store).1
        = .beginAuthRedirect shop false)
    ∧ ∀ status text,
        (handleAuthCallbackRequest cfg req shop (.error .cookieNotFound) store).1
          ≠ .http status text := by
  have h : (handleAuthCallbackRequest cfg req shop (.error .cookieNotFound) store).1
      = handleAuthBeginRequest cfg req shop := rfl
  rw [h]
  unfold handleAuthBeginRequest
  by_cases hc : cfg.isEmbeddedApp = true ∧ req.secFetchDest = some "iframe"
  · rw [if_pos hc]
    exact ⟨Or.inl rfl, fun s t hx => Response.noConfusion hx⟩
  · rw [if_neg hc]
    exact ⟨Or.inr rfl, fun s t hx => Response.noConfusion hx⟩

/-- C6: every callback-exchange error is classified into exactly one of three
outcomes - `CookieNotFound` restarts the OAuth begin flow, HMAC/OAuth
validation failures answer 400, and every other error answers 500; no error
leaves the handler unclassified. -/
theorem callback_error_classification
    (cfg : AppConfig) (req : RequestInfo) (shop : String) (store : List SessionRec)
    (e : CallbackErr) :
    (e = CallbackErr.cookieNotFound ∧
      (handleAuthCallbackRequest cfg req shop (.error e) store).1
        = handleAuthBeginRequest cfg req shop)
    ∨ ((e = CallbackErr.invalidHmac ∨ e = CallbackErr.invalidOAuth) ∧
      (handleAuthCallbackRequest cfg req shop (.error e) store).1
        = .http 400 "Invalid OAuth Request")
    ∨ ((∃ m, e = CallbackErr.other m) ∧
      (handleAuthCallbackRequest cfg req shop (.error e) store).1
        = .http 500 "Internal Server Error") := by
  cases e with
  | cookieNotFound => exact Or.inl ⟨rfl, rfl⟩
  | invalidHmac => exact Or.inr (Or.inl ⟨Or.inl rfl, rfl⟩)
  | invalidOAuth => exact Or.inr (Or.inl ⟨Or.inr rfl, rfl⟩)
  | other m => exact Or.inr (Or.inr ⟨⟨m, rfl⟩, rfl⟩)

/-- C1: under an embedded app config, a request outside the auth routes that
carries a valid session token whose tenant has a stored session record passing
`isActive(config.scopes)` makes the decision engine return a context whose
session field equals the stored record (paired with the validating payload);
the `.ok` result means no redirect or error response was thrown during the
decision. -/
theorem admin_valid_token_active_session_returns_context
    (cfg : AppConfig) (env : Env) (store : List SessionRec) (req : RequestInfo)
    (now : Nat) (tok : String) (payload : JwtPayload) (rec : SessionRec)
    (hEmb : cfg.isEmbeddedApp = true)
    (hTok : getSessionTokenHeader req = some tok)
    (hP1 : ¬(req.path = cfg.auth.patchSessionTokenPath))
    (hP2 : ¬(req.path = cfg.auth.exitIframePath))
    (hP3 : ¬(req.path = cfg.auth.path))
    (hP4 : ¬(req.path = cfg.auth.callbackPath))
    (hValid : env.validateToken tok = some payload)
    (hLoad : loadSession store (sessionIdFor cfg payload) = some rec)
    (hActive : rec.isActive cfg.scopes now = true) :
    authenticateAndGetSessionContext cfg env store req now = .ok ⟨rec, some payload⟩ := by
  unfold authenticateAndGetSessionContext handleRoutes handleBouncePageRoute
    handleExitIframeRoute handleOAuthRoutes getAuthenticatedSession
    resolveSessionContext manageAccessToken
  simp [hEmb, hTok, hP1, hP2, hP3, hP4, hValid, hLoad, hActive]

/-- Witness for C1 at a concrete embedded request with a valid token and a
stored active offline session. -/
theorem admin_valid_token_active_session_returns_context_witness :
    authenticateAndGetSessionContext embeddedConfig exampleEnv [exampleRecord]
      tokenRequest 0 = .ok ⟨exampleRecord, some examplePayload⟩ :=
  admin_valid_token_active_session_returns_context embeddedConfig exampleEnv
    [exampleRecord] tokenRequest 0 "tok" examplePayload exampleRecord
    rfl rfl (by decide) (by decide) (by decide) (by decide) rfl rfl rfl

/-- Counterexample to C7 as stated: under a non-embedded config, a request in
the no-session-token branch with a missing shop parameter (and no session
cookie) is answered with a hard 400 error from the offline-id lookup, not with
a redirect to the configured login path. -/
theorem noToken_missing_shop_not_always_login_redirect :
    authenticateAndGetSessionContext standaloneConfig exampleEnv [] bareRequest 0
      = .error (.http 400 "Bad Request")
    ∧ authenticateAndGetSessionContext standaloneConfig exampleEnv [] bareRequest 0
      ≠ .error (.redirectTo standaloneConfig.auth.loginPath) := by
  refine ⟨rfl, ?_⟩
  intro h
  rw [show authenticateAndGetSessionContext standaloneConfig exampleEnv [] bareRequest 0
      = .error (.http 400 "Bad Request") from rfl] at h
  simp at h

/-- C7 (amended): under an EMBEDDED app config, a request entering the
no-session-token branch whose shop parameter is missing or fails the domain
grammar, or whose host parameter is invalid, is redirected to the configured
login path. -/
theorem noToken_embedded_invalid_params_redirect_login
    (cfg : AppConfig) (env : Env) (store : List SessionRec) (req : RequestInfo)
    (now : Nat)
    (hEmb : cfg.isEmbeddedApp = true)
    (hTok : getSessionTokenHeader req = none)
    (hP1 : ¬(req.path = cfg.auth.patchSessionTokenPath))
    (hP2 : ¬(req.path = cfg.auth.exitIframePath))
    (hP3 : ¬(req.path = cfg.auth.path))
    (hP4 : ¬(req.path = cfg.auth.callbackPath))
    (hBad : sanitizeShop req.searchShop = none ∨ sanitizeHost req.searchHost = none) :
    authenticateAndGetSessionContext cfg env store req now
      = .error (.redirectTo cfg.auth.loginPath) := by
  unfold authenticateAndGetSessionContext handleRoutes handleBouncePageRoute
    handleExitIframeRoute handleOAuthRoutes noTokenBranch validateUrlParams
  rcases hBad with h | h
  · simp [hEmb, hTok, hP1, hP2, hP3, hP4, h]
  · cases hs : sanitizeShop req.searchShop <;>
      simp [hEmb, hTok, hP1, hP2, hP3, hP4, hs, h]

/-- Witness for the amended C7 at a concrete embedded request with a missing
shop parameter. -/
theorem noToken_embedded_invalid_params_redirect_login_witness :
    authenticateAndGetSessionContext embeddedConfig exampleEnv [] bareRequest 0
      = .error (.redirectTo embeddedConfig.auth.loginPath) :=
  noToken_embedded_invalid_params_redirect_login embeddedConfig exampleEnv []
    bareRequest 0 rfl rfl (by decide) (by decide) (by decide) (by decide)
    (Or.inl rfl)

/-- Helper for C10: the final store lookup never produces a thrown response. -/
theorem resolveSessionContext_ne_error (store : List SessionRec) (shop : String)
    (sessionId : Option String) (payload : Option JwtPayload) (r : Response) :
    resolveSessionContext store shop sessionId payload ≠ .error r := by
  unfold resolveSessionContext
  cases sessionId with
  | none => simp
  | some sid => rcases h : loadSession store sid with _ | s <;> simp [h]

/-- Helper for C10: once the bounce check has passed on the same request and
the two embedding flags agree, `getAuthenticatedSession` cannot reach its bare
`ShopifyError` branch. -/
theorem getAuthenticatedSession_no_bare_error
    (cfg : AppConfig) (env : Env) (store : List SessionRec) (req : RequestInfo)
    (hApi : cfg.apiIsEmbeddedApp = cfg.isEmbeddedApp)
    (hRan : ensureSessionTokenSearchParamIfRequired cfg req = .ok ()) :
    getAuthenticatedSession cfg env store req ≠ .error .shopifyError := by
  unfold getAuthenticatedSession
  cases hEmb : cfg.isEmbeddedApp with
  | false =>
    simp only [hEmb]
    exact resolveSessionContext_ne_error _ _ _ _ _
  | true =>
    have hApi2 : cfg.apiIsEmbeddedApp = true := by rw [hApi, hEmb]
    have hj : ¬(jsStr req.searchIdToken = none) := by
      intro hj
      unfold ensureSessionTokenSearchParamIfRequired at hRan
      rw [if_pos ⟨hApi2, hj⟩] at hRan
      exact Except.noConfusion hRan
    obtain ⟨t, ht⟩ : ∃ t, jsStr req.searchIdToken = some t := by
      cases hx : jsStr req.searchIdToken with
      | none => exact absurd hx hj
      | some t => exact ⟨t, rfl⟩
    cases hh : getSessionTokenHeader req with
    | some tk =>
      simp only [hEmb, hh]
      cases hv : env.validateToken tk with
      | none => simp [hv]
      | some p => simp only [hv]; exact resolveSessionContext_ne_error _ _ _ _ _
    | none =>
      simp only [hEmb, hh, getSessionTokenFromUrlParam, ht]
      cases hv : env.validateToken t with
      | none => simp [hv]
      | some p => simp only [hv]; exact resolveSessionContext_ne_error _ _ _ _ _

/-- C10: `getAuthenticatedSession` throws a bare `ShopifyError` when the
config is embedded but no session token is present; provided
`api.config.isEmbeddedApp` agrees with `config.isEmbeddedApp` and the bounce
check (`ensureSessionTokenSearchParamIfRequired`) has already passed on the
same request, that branch is unreachable from `ensureSessionExists`. -/
theorem ensureSessionExists_never_bare_shopify_error
    (cfg : AppConfig) (env : Env) (store : List SessionRec) (req : RequestInfo)
    (now : Nat)
    (hApi : cfg.apiIsEmbeddedApp = cfg.isEmbeddedApp)
    (hRan : ensureSessionTokenSearchParamIfRequired cfg req = .ok ()) :
    ensureSessionExists cfg env store req now ≠ .error .shopifyError := by
  unfold ensureSessionExists
  split
  · rename_i r heq
    intro h
    injection h with h2
    exact getAuthenticatedSession_no_bare_error cfg env store req hApi hRan
      (by rw [heq, h2])
  · rename_i sws heq
    split
    · simp
    · split <;> simp

/-- Witness for C10 at a concrete embedded request carrying an `id_token`
search param (whose validation fails, exercising the 401 outcome rather than
the bare error). -/
theorem ensureSessionExists_never_bare_shopify_error_witness :
    ensureSessionExists embeddedConfig exampleEnv []
      { bareRequest with searchIdToken := some "bad" } 0
      ≠ .error .shopifyError :=
  ensureSessionExists_never_bare_shopify_error embeddedConfig exampleEnv []
    { bareRequest with searchIdToken := some "bad" } 0 rfl rfl

/-- Helper for C9: every character of a grammar-valid shop domain is either a
label character or a character of the canonical suffix. -/
theorem valid_shop_chars {v : List Char} (h : isValidShopList v = true) :
    ∀ c ∈ v, isShopChar c = true ∨ c ∈ shopSuffix := by
  intro c hc
  unfold isValidShopList at h
  simp only [Bool.and_eq_true, decide_eq_true_eq] at h
  obtain ⟨⟨hlen, hdrop⟩, hall⟩ := h
  have hsplit := List.take_append_drop (v.length - shopSuffix.length) v
  rw [← hsplit] at hc
  rcases List.mem_append.mp hc with h4 | h4
  · exact Or.inl (List.all_eq_true.mp hall c h4)
  · exact Or.inr (hdrop ▸ h4)

/-- Helper for C9: a grammar-valid shop domain contains no colon, so no
protocol marker. -/
theorem valid_shop_no_colon {v : List Char} (h : isValidShopList v = true) :
    ':' ∉ v := by
  intro hc
  rcases valid_shop_chars h ':' hc with h1 | h1
  · exact absurd h1 (by decide)
  · exact absurd h1 (by decide)

/-- Helper for C9: protocol stripping is the identity on a grammar-valid shop
domain. -/
theorem valid_shop_strip {v : List Char} (h : isValidShopList v = true) :
    stripProtocol v = v := by
  have hcolon := valid_shop_no_colon h
  have h8 : ¬(v.take 8 = "https://".toList) := fun he =>
    hcolon (List.take_subset 8 v (by rw [he]; decide))
  have h7 : ¬(v.take 7 = "http://".toList) := fun he =>
    hcolon (List.take_subset 7 v (by rw [he]; decide))
  unfold stripProtocol
  rw [if_neg h8, if_neg h7]

/-- Helper for C9: a grammar-valid shop domain contains a dot (from the
canonical suffix), so suffix completion leaves it alone. -/
theorem valid_shop_has_dot {v : List Char} (h : isValidShopList v = true) :
    '.' ∈ v := by
  unfold isValidShopList at h
  simp only [Bool.and_eq_true, decide_eq_true_eq] at h
  obtain ⟨⟨hlen, hdrop⟩, _⟩ := h
  have hm : '.' ∈ v.drop (v.length - shopSuffix.length) := by rw [hdrop]; decide
  exact List.drop_subset _ v hm

/-- C9: the login helper's shop normalization is idempotent - normalizing an
already-normalized valid result returns it unchanged - and an input failing
the domain grammar makes the helper return the structured `InvalidShop`
result (a value, not a thrown exception). -/
theorem shop_normalization_idempotent (s v : List Char)
    (h : normalizeShop s = some v) :
    normalizeShop v = some v
    ∧ ∀ (apiKey : String) (req : LoginRequest) (raw : String),
        loginShopOf req = some raw → normalizeShop raw.toList = none →
        login apiKey req = .validationError .invalidShop := by
  have hval : isValidShopList v = true := by
    unfold normalizeShop at h
    by_cases hb : isValidShopList (shopWithDomainOf s) = true
    · rw [if_pos hb] at h
      exact Option.some.inj h ▸ hb
    · rw [if_neg hb] at h
      exact absurd h (by simp)
  have hw : shopWithDomainOf v = v := by
    unfold shopWithDomainOf
    rw [if_pos (valid_shop_has_dot hval)]
    exact valid_shop_strip hval
  constructor
  · simp [normalizeShop, hw, hval]
  · intro apiKey req raw hshop hnone
    simp only [String.toList] at hnone
    simp [login, hshop, hnone]

/-- Witness for C9: normalizing "test-shop" yields the canonical domain, on
which normalization is the identity. -/
theorem shop_normalization_idempotent_witness :
    normalizeShop ("test-shop.myshopify.com".toList)
      = some ("test-shop.myshopify.com".toList) :=
  (shop_normalization_idempotent ("test-shop".toList)
    ("test-shop.myshopify.com".toList) (by decide)).1

/-- C8 (evaluation at the failing input): the login helper under the sources
here, given `GET /auth/login?shop=test-shop`, throws a 302 redirect to the
Shopify admin apps page `https://admin.shopify.com/store/test-shop/apps/<apiKey>`,
not to `/auth?shop=test-shop.myshopify.com` as the claim (and the repository's
own login tests) state. -/
theorem login_test_shop_redirects_to_admin_apps_page :
    login "test-api-key" ⟨some "test-shop", none⟩
      = .thrownRedirect 302 "https://admin.shopify.com/store/test-shop/apps/test-api-key"
    ∧ ¬(login "test-api-key" ⟨some "test-shop", none⟩
      = .thrownRedirect 302 "/auth?shop=test-shop.myshopify.com") := by
  refine ⟨rfl, ?_⟩
  intro h
  rw [show login "test-api-key" ⟨some "test-shop", none⟩
      = LoginResult.thrownRedirect 302
          "https://admin.shopify.com/store/test-shop/apps/test-api-key" from rfl] at h
  injection h with h1 h2
  exact absurd h2 (by decide)

end ShopifyAuth
